import Mathlib

/-
Verification development for the chatbot message intent router of the
registrar helpdesk repository (src/backend/routes/chatbot.js).

The router is shallowly embedded as a pure Lean function.  JavaScript
strings are modelled by Lean String (character lists); all string
operations used by the source (toLowerCase, trim, includes, substring,
split, regex scans) are re-implemented structurally over List Char so
that every definition is executable and kernel-reducible.  The three
impure collaborators are made explicit:
  - the ticket store is a field of an explicit Store record that the
    router threads through (Mongo find/sort/limit is modelled as
    filter, stable sort by createdAt descending, take 10);
  - persistence success, the generated ticket number and id, the server
    clock hour and the date formatter are fields of an Env record
    (they come from the environment in the source: Date, Mongoose);
  - the external completion service is an Env-supplied function used
    verbatim by the fallback stage.
-/

/-! ## JavaScript string primitives, modelled over List Char -/

/-- Whitespace characters recognised by JS \s and String.prototype.trim
(ASCII fragment; inputs of interest are ASCII). -/
def isJsSpace (c : Char) : Bool :=
  c == ' ' || c == '\t' || c == '\n' || c == '\r' || c == '\x0b' || c == '\x0c'

/-- JS String.prototype.trim: strip whitespace from both ends. -/
def jsTrim (s : String) : String :=
  String.mk (((s.data.dropWhile isJsSpace).reverse.dropWhile isJsSpace).reverse)

/-- JS String.prototype.toLowerCase (ASCII). -/
def jsToLower (s : String) : String :=
  String.mk (s.data.map Char.toLower)

/-- JS String.prototype.toUpperCase (ASCII). -/
def jsToUpper (s : String) : String :=
  String.mk (s.data.map Char.toUpper)

/-- JS String.prototype.substring(0, n). -/
def jsSubstring (s : String) (n : Nat) : String :=
  String.mk (s.data.take n)

/-- Boolean prefix test on character lists. -/
def charsPrefix : List Char → List Char → Bool
  | [], _ => true
  | _ :: _, [] => false
  | a :: as, b :: bs => a == b && charsPrefix as bs

/-- Scan for an occurrence of the needle anywhere in the haystack. -/
def charsIncl (needle : List Char) : List Char → Bool
  | [] => needle.isEmpty
  | c :: rest => charsPrefix needle (c :: rest) || charsIncl needle rest

/-- JS String.prototype.includes. -/
def jsIncludes (hay needle : String) : Bool :=
  charsIncl needle.data hay.data

/-- JS String.prototype.startsWith. -/
def jsStartsWith (hay needle : String) : Bool :=
  charsPrefix needle.data hay.data

/-- JS truthiness chain a || b on strings: empty string is falsy. -/
def orStr (a b : String) : String :=
  if a == "" then b else a

/-- Split on a character class (used to model split(/\s+/); the extra
empty fragments a per-character split produces are removed downstream by
the length > 3 filter of the only caller). -/
def splitOnPredAux (p : Char → Bool) (cur : List Char) : List Char → List (List Char)
  | [] => [cur.reverse]
  | c :: cs =>
      if p c then cur.reverse :: splitOnPredAux p [] cs
      else splitOnPredAux p (c :: cur) cs

def splitOnPred (p : Char → Bool) (s : List Char) : List (List Char) :=
  splitOnPredAux p [] s

/-- Case-insensitive literal match: if pat is a case-insensitive prefix
of s, return the remainder of s. -/
def ciPrefix : List Char → List Char → Option (List Char)
  | [], s => some s
  | _ :: _, [] => none
  | p :: ps, c :: cs => if p.toLower == c.toLower then ciPrefix ps cs else none

/-- Numeric value of a digit run (JS parseInt on a digit-only string). -/
def digitsVal (ds : List Char) : Nat :=
  ds.foldl (fun acc c => acc * 10 + (c.toNat - 48)) 0

/-! ## Data model -/

structure FAQ where
  question : String
  keywords : List String
  answer : String
deriving DecidableEq, Repr

structure Department where
  name : String
  location : String
  hours : String
  contact : Option String
  phone : Option String
  services : List String
deriving DecidableEq, Repr

structure Resolution where
  rejectionReason : Option String
  resolutionNotes : Option String
deriving DecidableEq, Repr

/-- Category-dependent structured detail bag filled by extractTicketInfo. -/
structure RequestDetails where
  numberOfCopies : Option Nat := none
  purpose : Option String := none
  subjectCode : Option String := none
  subjectName : Option String := none
deriving DecidableEq, Repr

/-- A persisted ticket as the router sees it after population
(assignedTo is the resolved display name, firstName falling back to
username in the source). -/
structure Ticket where
  id : String
  ticketNumber : String
  title : String
  description : String
  category : String
  priority : String
  status : String
  createdBy : String
  assignedTo : Option String
  resolution : Option Resolution
  createdAt : Nat
  requestDetails : RequestDetails
deriving DecidableEq, Repr

/-- Client-echoed conversation context from the request body; both
fields may be absent (or empty, which JS truthiness treats the same). -/
structure InCtx where
  originalMessage : Option String
  category : Option String
deriving DecidableEq, Repr

/-- Context the router embeds in a ticket offer. -/
structure OutCtx where
  originalMessage : String
  category : String
deriving DecidableEq, Repr

inductive BotAction where
  | ticket_created
  | ticket_status
  | ticket_offer
  | department_info
deriving DecidableEq, Repr

/-- response.ticket payload on creation. -/
structure TicketRef where
  id : String
  ticketNumber : String
  title : String
deriving DecidableEq, Repr

/-- response.tickets entries on status inquiries. -/
structure TicketStatusItem where
  id : String
  ticketNumber : String
  title : String
  status : String
  priority : String
  category : String
deriving DecidableEq, Repr

/-- The data object of the chat endpoint response. -/
structure ChatResponse where
  text : String
  action : Option BotAction
  ticket : Option TicketRef
  tickets : Option (List TicketStatusItem)
  conversationContext : Option OutCtx
deriving DecidableEq, Repr

/-- HTTP envelope of the endpoint (status code, success flag, data). -/
structure Envelope where
  status : Nat
  success : Bool
  data : Option ChatResponse
deriving DecidableEq, Repr

/-- Read-only catalogs plus the mutable ticket store. -/
structure Store where
  faqs : List FAQ
  departments : List Department
  tickets : List Ticket
deriving DecidableEq, Repr

/-- Environment inputs of one invocation: server clock hour, ticket
persistence outcome and generated identifiers, date rendering
(toLocaleDateString is locale and platform behaviour), and the external
completion service. -/
structure Env where
  hour : Nat
  persistOk : Bool
  newTicketId : String
  newTicketNumber : String
  now : Nat
  fmtDateLong : Nat → String
  fmtDateShort : Nat → String
  gptReply : String → String

def okJson (r : ChatResponse) : Envelope :=
  { status := 200, success := true, data := some r }

def badRequest : Envelope :=
  { status := 400, success := false, data := none }

/-! ## Stage 1: greeting detection -/

/-- The two greeting regex alternation groups (prefix anchored, case
insensitive); the second group is subsumed by the first but kept as in
the source. -/
def greetingPatternsA : List String :=
  ["hi", "hello", "hey", "greetings", "good morning", "good afternoon",
   "good evening", "good day"]

def greetingPatternsB : List String :=
  ["hi there", "hello there", "hey there"]

def detectGreeting (message : String) : Bool :=
  let lm := jsTrim (jsToLower message)
  greetingPatternsA.any (fun p => jsStartsWith lm p)
    || greetingPatternsB.any (fun p => jsStartsWith lm p)

def getGreetingResponse (hour : Nat) : String :=
  let greeting :=
    if hour < 12 then "Good morning"
    else if hour < 18 then "Good afternoon"
    else "Good evening"
  greeting ++ "! I'm the Registrar's Office AI assistant. How can I help you today? I can assist with:\n\n• Requesting documents (OTR, certificates, etc.)\n• Subject enrollment\n• Grade inquiries\n• General questions\n\nJust ask me anything, and I'll help you create a ticket if needed!"

/-! ## Category detection -/

/-- ticketKeywords mapping in declared (insertion) order. -/
def ticketKeywords : List (String × List String) :=
  [("OTR Request", ["otr", "transcript", "official transcript", "records", "tor"]),
   ("Subject Enrollment", ["enroll", "enrollment", "add subject", "register subject", "drop subject", "withdraw subject"]),
   ("Grade Inquiry", ["grade", "grades", "check grade", "view grade", "question about grade"]),
   ("Document Request", ["document", "certificate", "diploma", "coe", "certificate of enrollment"]),
   ("Enrollment", ["enrollment", "enroll", "change course", "shift course"]),
   ("Scholarship", ["scholarship", "financial aid", "grant"]),
   ("Financial Aid", ["financial aid", "assistance", "help with payment"]),
   ("Tuition Payment", ["tuition", "payment", "pay", "fee"]),
   ("Academic Complaint", ["complaint", "grievance", "issue", "problem"]),
   ("General Inquiry", ["inquiry", "question", "help", "information"])]

/-- First category (in declared order) with at least one keyword
substring match; General Inquiry when none matches. -/
def detectTicketCategory (message : String) : String :=
  let lm := jsToLower message
  match ticketKeywords.find? (fun p => p.2.any (fun k => jsIncludes lm (jsToLower k))) with
  | some p => p.1
  | none => "General Inquiry"

/-! ## FAQ matching -/

def faqEntryMatches (lm : String) (f : FAQ) : Bool :=
  f.keywords.any (fun k => jsIncludes lm (jsToLower k))
    || (((splitOnPred isJsSpace (jsToLower f.question).data).map String.mk).filter
          (fun w => w.length > 3)).any (fun w => jsIncludes lm w)

def matchFAQ (faqs : List FAQ) (message : String) : Option String :=
  let lm := jsToLower message
  match faqs.find? (fun f => faqEntryMatches lm f) with
  | some f => some f.answer
  | none => none

/-! ## Department lookup -/

def locationKeywords : List String :=
  ["where", "location", "find", "get", "obtain", "available", "can i get", "how to get"]

def isLocationInquiry (message : String) : Bool :=
  locationKeywords.any (fun k => jsIncludes (jsToLower message) k)

def deptServiceMatch (lm : String) (d : Department) : Bool :=
  d.services.any (fun s => jsIncludes lm (jsToLower s))

def findDepartmentByService (depts : List Department) (message : String) : Option Department :=
  if isLocationInquiry message then
    depts.find? (fun d => deptServiceMatch (jsToLower message) d)
  else none

/-- JS truthiness of an optional string field. -/
def truthyOpt (o : Option String) : Bool :=
  match o with
  | some s => s != ""
  | none => false

def formatDepartmentInfo (d : Department) : String :=
  "You can find that at the **" ++ d.name ++ "**.\n\n"
    ++ "📍 **Location:** " ++ d.location ++ "\n"
    ++ "🕐 **Hours:** " ++ d.hours ++ "\n"
    ++ (if truthyOpt d.contact then "📧 **Email:** " ++ d.contact.getD "" ++ "\n" else "")
    ++ (if truthyOpt d.phone then "📞 **Phone:** " ++ d.phone.getD "" ++ "\n" else "")
    ++ "\nWould you like me to create a ticket for this inquiry, or do you need more information?"

/-! ## Ticket field extraction (regex scans of extractTicketInfo) -/

/-- Try the copies regex at one start position: one or more digits
(greedy), optional whitespace, then copy or copies, case-insensitively.
The digit, whitespace and literal character classes are pairwise
disjoint, so the greedy scan needs no backtracking. -/
def copiesAt (s : List Char) : Option Nat :=
  let ds := s.takeWhile Char.isDigit
  if ds.isEmpty then none
  else
    let rest := (s.dropWhile Char.isDigit).dropWhile isJsSpace
    if (ciPrefix "copy".data rest).isSome || (ciPrefix "copies".data rest).isSome then
      some (digitsVal ds)
    else none

/-- Leftmost match of the copies regex. -/
def scanCopies : List Char → Option Nat
  | [] => none
  | c :: rest =>
      match copiesAt (c :: rest) with
      | some n => some n
      | none => scanCopies rest

/-- Lazy quantified capture step: the class-constrained group has
consumed acc (reversed); extend one character at a time, stopping at the
first literal dot or at end of input. -/
def lazyCapGo (cl : Char → Bool) (acc : List Char) : List Char → Option (List Char)
  | [] => some acc.reverse
  | c :: cs =>
      if c == '.' then some acc.reverse
      else if cl c then lazyCapGo cl (c :: acc) cs
      else none

/-- Lazy capture of at least one class character terminated by a literal
dot or end of input. -/
def lazyCap (cl : Char → Bool) : List Char → Option (List Char)
  | [] => none
  | c :: cs => if cl c then lazyCapGo cl [c] cs else none

/-- JS dot (no s flag): any character except a line terminator. -/
def isDotChar (c : Char) : Bool :=
  !(c == '\n' || c == '\r')

def isColonWs (c : Char) : Bool :=
  c == ':' || isJsSpace c

/-- Candidate remainders after a greedy one-or-more run of the colon or
whitespace class, longest run first (regex backtracking order). -/
def sepSplits (s : List Char) : List (List Char) :=
  let m := (s.takeWhile isColonWs).length
  (List.range m).map (fun i => s.drop (m - i))

def firstSomeRes (f : List Char → Option (List Char)) : List (List Char) → Option (List Char)
  | [] => none
  | x :: xs =>
      match f x with
      | some r => some r
      | none => firstSomeRes f xs

/-- purpose[:\s]+(.+?)(?:\.|$) attempted at one start position. -/
def purposeAt (s : List Char) : Option (List Char) :=
  match ciPrefix "purpose".data s with
  | none => none
  | some rest => firstSomeRes (lazyCap isDotChar) (sepSplits rest)

def scanPurpose : List Char → Option (List Char)
  | [] => none
  | c :: rest =>
      match purposeAt (c :: rest) with
      | some r => some r
      | none => scanPurpose rest

/-- (?:subject\s+code|code)[:\s]+([A-Z0-9]+) attempted at one start
position (the alternatives start with distinct characters, and the
separator and token classes are disjoint, so no backtracking arises). -/
def subjectCodeAt (s : List Char) : Option (List Char) :=
  let afterKw : Option (List Char) :=
    match ciPrefix "subject".data s with
    | some r1 =>
        let ws := r1.takeWhile isJsSpace
        if ws.isEmpty then none
        else ciPrefix "code".data (r1.dropWhile isJsSpace)
    | none => ciPrefix "code".data s
  match afterKw with
  | none => none
  | some rest =>
      if (rest.takeWhile isColonWs).isEmpty then none
      else
        let tok := (rest.dropWhile isColonWs).takeWhile Char.isAlphanum
        if tok.isEmpty then none else some tok

def scanSubjectCode : List Char → Option (List Char)
  | [] => none
  | c :: rest =>
      match subjectCodeAt (c :: rest) with
      | some r => some r
      | none => scanSubjectCode rest

/-- Letter-or-whitespace class of the subject name capture. -/
def isNameChar (c : Char) : Bool :=
  c.isAlpha || isJsSpace c

/-- (?:subject|course)[:\s]+([A-Za-z\s]+?)(?:\.|$) at one position. -/
def subjectNameAt (s : List Char) : Option (List Char) :=
  let afterKw : Option (List Char) :=
    match ciPrefix "subject".data s with
    | some r => some r
    | none => ciPrefix "course".data s
  match afterKw with
  | none => none
  | some rest => firstSomeRes (lazyCap isNameChar) (sepSplits rest)

def scanSubjectName : List Char → Option (List Char)
  | [] => none
  | c :: rest =>
      match subjectNameAt (c :: rest) with
      | some r => some r
      | none => scanSubjectName rest

structure TicketInfo where
  title : String
  description : String
  category : String
  priority : String
  requestDetails : RequestDetails
deriving DecidableEq, Repr

def detectPriority (lm : String) : String :=
  if jsIncludes lm "urgent" || jsIncludes lm "asap" || jsIncludes lm "immediately" then "Urgent"
  else if jsIncludes lm "important" || jsIncludes lm "soon" then "High"
  else "Normal"

def extractTicketInfo (message category : String) : TicketInfo :=
  let lm := jsToLower message
  { title := jsSubstring message 100
    description := message
    category := category
    priority := detectPriority lm
    requestDetails :=
      if category == "OTR Request" then
        { numberOfCopies := scanCopies message.data
          purpose := (scanPurpose message.data).map (fun cs => jsTrim (String.mk cs)) }
      else if category == "Subject Enrollment" then
        { subjectCode := (scanSubjectCode message.data).map (fun cs => jsToUpper (String.mk cs))
          subjectName := (scanSubjectName message.data).map (fun cs => jsTrim (String.mk cs)) }
      else {} }

/-! ## Confirmation detection and ticket creation -/

def isTicketConfirmation (lm : String) : Bool :=
  lm == "yes" || lm == "y" || lm == "create ticket" || lm == "create"
    || jsIncludes lm "yes, create" || jsIncludes lm "yes create"
    || lm == "ok" || lm == "okay" || lm == "sure"

/-- Sanitised ticket data assembled by createTicket before save. -/
structure TicketData where
  title : String
  description : String
  category : String
  priority : String
  createdBy : String
  status : String
  requestDetails : RequestDetails
deriving DecidableEq, Repr

def mkTicketData (info : TicketInfo) (userId : String) : TicketData :=
  let title0 := jsSubstring (orStr info.title "Chatbot Request") 200
  let desc0 := jsSubstring (orStr info.description (orStr info.title "Request created via chatbot")) 5000
  { title := if title0.length < 5 then "Request from chatbot: " ++ title0 else title0
    description := if desc0.length < 10 then desc0 ++ " (Created via chatbot)" else desc0
    category := orStr info.category "General Inquiry"
    priority := orStr info.priority "Normal"
    createdBy := userId
    status := "Pending"
    requestDetails := info.requestDetails }

/-- The persisted record the store returns for saved ticket data, with
the system-generated identifiers supplied by the environment. -/
def mkStoredTicket (env : Env) (d : TicketData) : Ticket :=
  { id := env.newTicketId
    ticketNumber := env.newTicketNumber
    title := d.title
    description := d.description
    category := d.category
    priority := d.priority
    status := d.status
    createdBy := d.createdBy
    assignedTo := none
    resolution := none
    createdAt := env.now
    requestDetails := d.requestDetails }

/-- createTicket: build sanitised data and save; a persistence failure
surfaces as none (the source throws and the caller catches). -/
def createTicket (env : Env) (st : Store) (info : TicketInfo) (userId : String) :
    Option (Ticket × Store) :=
  if env.persistOk then
    let t := mkStoredTicket env (mkTicketData info userId)
    some (t, { st with tickets := st.tickets ++ [t] })
  else none

/-! ## Status inquiry -/

def statusKeywords : List String :=
  ["ticket status", "check ticket", "my tickets", "ticket status",
   "status of", "ticket number", "view ticket", "show ticket",
   "what is my ticket", "where is my ticket", "ticket update",
   "ticket progress", "ticket information", "my ticket info"]

def detectTicketStatusInquiry (message : String) : Bool :=
  statusKeywords.any (fun k => jsIncludes (jsToLower message) k)

def isTicketChar (c : Char) : Bool :=
  c.isDigit || c.isAlpha || c == '-'

/-- Strict pattern TICKET-[\dA-Z-]+ (case-insensitive) at one position. -/
def strictTicketAt (s : List Char) : Option (List Char) :=
  match ciPrefix "TICKET-".data s with
  | none => none
  | some after =>
      let run := after.takeWhile isTicketChar
      if run.isEmpty then none
      else some ("TICKET-".data ++ run)

def scanStrictTicket : List Char → Option (List Char)
  | [] => none
  | c :: rest =>
      match strictTicketAt (c :: rest) with
      | some r => some r
      | none => scanStrictTicket rest

/-- Loose pattern (?:ticket|#)\s*([A-Z0-9-]+) at one position; the two
alternatives start with distinct characters and the whitespace and token
classes are disjoint, so the greedy scan needs no backtracking. -/
def looseTicketAt (s : List Char) : Option (List Char) :=
  let afterKw : Option (List Char) :=
    match ciPrefix "ticket".data s with
    | some r => some r
    | none => ciPrefix "#".data s
  match afterKw with
  | none => none
  | some rest =>
      let run := (rest.dropWhile isJsSpace).takeWhile isTicketChar
      if run.isEmpty then none else some run

def scanLooseTicket : List Char → Option (List Char)
  | [] => none
  | c :: rest =>
      match looseTicketAt (c :: rest) with
      | some r => some r
      | none => scanLooseTicket rest

def extractTicketNumber (message : String) : Option String :=
  match scanStrictTicket message.data with
  | some m => some (jsToUpper (String.mk m))
  | none =>
      match scanLooseTicket message.data with
      | some m => some (jsToUpper (String.mk m))
      | none => none

/-- Mongo query filter of getUserTickets. -/
def ticketQuery (userId : String) (tn : Option String) (t : Ticket) : Bool :=
  t.createdBy == userId
    && (match tn with
        | some n => t.ticketNumber == n
        | none => true)

/-- Newest-first order on tickets (sort createdAt: -1). -/
def newerFirst (a b : Ticket) : Prop :=
  b.createdAt ≤ a.createdAt

instance : DecidableRel newerFirst :=
  fun a b => inferInstanceAs (Decidable (b.createdAt ≤ a.createdAt))

instance : IsTotal Ticket newerFirst :=
  ⟨fun a b => Nat.le_total b.createdAt a.createdAt⟩

instance : IsTrans Ticket newerFirst :=
  ⟨fun _ _ _ h1 h2 => Nat.le_trans h2 h1⟩

/-- Ticket.find(query).sort(createdAt desc).limit(10). -/
def getUserTickets (tickets : List Ticket) (userId : String) (tn : Option String) : List Ticket :=
  (List.insertionSort newerFirst (tickets.filter (ticketQuery userId tn))).take 10

/-! ## Status formatting -/

def statusEmoji (s : String) : String :=
  if s == "Pending" then "⏳"
  else if s == "In Review" then "👀"
  else if s == "Approved" then "✅"
  else if s == "Rejected" then "❌"
  else if s == "Completed" then "✔️"
  else if s == "Cancelled" then "🚫"
  else if s == "On Hold" then "⏸️"
  else "📋"

def priorityEmoji (p : String) : String :=
  if p == "Low" then "🟢"
  else if p == "Normal" then "🟡"
  else if p == "High" then "🟠"
  else if p == "Urgent" then "🔴"
  else "🟡"

def singleTicketView (env : Env) (t : Ticket) : String :=
  "Here's the status of your ticket:\n\n"
    ++ statusEmoji t.status ++ " **Ticket #" ++ t.ticketNumber ++ "**\n"
    ++ "📝 Title: " ++ t.title ++ "\n"
    ++ "📊 Status: " ++ t.status ++ "\n"
    ++ priorityEmoji t.priority ++ " Priority: " ++ t.priority ++ "\n"
    ++ "📁 Category: " ++ t.category ++ "\n"
    ++ "📅 Created: " ++ env.fmtDateLong t.createdAt ++ "\n"
    ++ (match t.assignedTo with
        | some n => "👤 Assigned to: " ++ n ++ "\n"
        | none => "")
    ++ (if t.status == "Rejected" && truthyOpt (t.resolution.bind Resolution.rejectionReason) then
          "\n❌ Rejection Reason: " ++ (t.resolution.bind Resolution.rejectionReason).getD "" ++ "\n"
        else "")
    ++ (if t.status == "Completed" && truthyOpt (t.resolution.bind Resolution.resolutionNotes) then
          "\n✅ Resolution: " ++ (t.resolution.bind Resolution.resolutionNotes).getD "" ++ "\n"
        else "")
    ++ "\nYou can view full details in the Tickets section."

def ticketLine (env : Env) (i : Nat) (t : Ticket) : String :=
  toString (i + 1) ++ ". " ++ statusEmoji t.status ++ " **#" ++ t.ticketNumber ++ "** - "
    ++ t.title ++ "\n"
    ++ "   Status: " ++ t.status ++ " | Priority: " ++ t.priority ++ " | "
    ++ env.fmtDateShort t.createdAt ++ "\n\n"

def listIntroLines (env : Env) (ts : List Ticket) : String :=
  "I found " ++ toString ts.length ++ " ticket" ++ (if ts.length > 1 then "s" else "")
    ++ " in your account:\n\n"
    ++ String.join (ts.enum.map (fun p => ticketLine env p.1 p.2))

def truncNote : String :=
  "\n(Showing most recent 10 tickets. View all tickets in the Tickets section.)"

def finalPrompt : String :=
  "\nWould you like to know more about a specific ticket? Just mention the ticket number!"

def noTicketsText : String :=
  "I couldn't find any tickets in your account. Would you like to create a new ticket?"

def listTicketView (env : Env) (ts : List Ticket) : String :=
  (listIntroLines env ts ++ (if 10 ≤ ts.length then truncNote else "")) ++ finalPrompt

def formatTicketStatus (env : Env) (tickets : List Ticket) (isSpecific : Bool) : String :=
  match tickets with
  | [] => noTicketsText
  | t :: rest =>
      if isSpecific && rest.isEmpty then singleTicketView env t
      else listTicketView env (t :: rest)

/-! ## Response texts of the remaining stages -/

def deptOfferText : String :=
  "\n\nWould you like me to create a ticket for this? Just reply \"yes\" or \"create ticket\" and I'll set it up for you."

def faqOfferText : String :=
  "\n\nWould you like me to create a ticket for this request? Just reply \"yes\" or \"create ticket\" and I'll set it up for you."

def createdText (t : Ticket) : String :=
  "Great! I've created a ticket (#" ++ t.ticketNumber ++ ") for your request: \"" ++ t.title
    ++ "\".\n\nOur staff will review it and respond within 1-2 business days. You can track your ticket status in the Tickets section.\n\nIs there anything else I can help you with?"

def createFailText : String :=
  "I'm having trouble creating the ticket right now. Please try creating a ticket manually through the Tickets section, or let me know if you'd like to try again."

def notFoundText (n : String) : String :=
  "I couldn't find a ticket with number #" ++ n
    ++ " in your account. Please check the ticket number and try again, or ask me to show all your tickets."

def stage6Text : String :=
  "I understand you need help with that. I can create a ticket for your request so our staff can assist you.\n\nWould you like me to create a ticket? Just reply \"yes\" or \"create ticket\" and I'll set it up for you."

/-! ## The message intent router -/

/-- conversationContext && conversationContext.originalMessage under JS
truthiness. -/
def ctxOriginal : Option InCtx → Option String
  | some c =>
      (match c.originalMessage with
       | some m => if m == "" then none else some m
       | none => none)
  | none => none

def ctxCategory : Option InCtx → Option String
  | some c => c.category
  | none => none

/-- conversationContext.category || detectTicketCategory(m) ||
General Inquiry. -/
def confCategory (ctxCat : Option String) (m : String) : String :=
  orStr (ctxCat.getD "") (orStr (detectTicketCategory m) "General Inquiry")

def ticketCreatedResponse (t : Ticket) : ChatResponse :=
  { text := createdText t
    action := some BotAction.ticket_created
    ticket := some { id := t.id, ticketNumber := t.ticketNumber, title := t.title }
    tickets := none
    conversationContext := none }

def ticketFailResponse : ChatResponse :=
  { text := createFailText, action := none, ticket := none, tickets := none,
    conversationContext := none }

/-- Stage 2 body shared by the with-context and no-context confirmation
branches (they differ only in the message the fields are derived from
and in the category source). -/
def confirmStage (env : Env) (st : Store) (userId : String) (m : String)
    (ctxCat : Option String) : Envelope × Store :=
  let category := confCategory ctxCat m
  let info := extractTicketInfo m category
  match createTicket env st info userId with
  | some (t, st2) => (okJson (ticketCreatedResponse t), st2)
  | none => (okJson ticketFailResponse, st)

/-- The ticket resulting from a successful confirmation: every field is
derived from the context message m (and context category), never from
the confirmation utterance. -/
def confirmTicket (env : Env) (ctxCat : Option String) (m userId : String) : Ticket :=
  mkStoredTicket env (mkTicketData (extractTicketInfo m (confCategory ctxCat m)) userId)

def stage3Cues : List String :=
  ["request", "need", "want", "apply", "create", "submit", "help with", "inquiry"]

def stage4Cues : List String :=
  ["request", "need", "want", "apply", "create", "submit", "help with"]

def stage6Cues : List String :=
  ["request", "need", "want", "apply", "create", "submit",
   "help with", "assistance", "issue", "problem"]

def deptResponse (d : Department) (message lm : String) : ChatResponse :=
  if stage3Cues.any (fun c => jsIncludes lm c) then
    { text := formatDepartmentInfo d ++ deptOfferText
      action := some BotAction.ticket_offer
      ticket := none
      tickets := none
      conversationContext := some { originalMessage := message, category := detectTicketCategory message } }
  else
    { text := formatDepartmentInfo d, action := some BotAction.department_info,
      ticket := none, tickets := none, conversationContext := none }

def faqResponse (ans : String) (message lm : String) : ChatResponse :=
  if stage4Cues.any (fun c => jsIncludes lm c) then
    { text := ans ++ faqOfferText
      action := some BotAction.ticket_offer
      ticket := none
      tickets := none
      conversationContext := some { originalMessage := message, category := detectTicketCategory message } }
  else
    { text := ans, action := none, ticket := none, tickets := none, conversationContext := none }

def mkStatusItem (t : Ticket) : TicketStatusItem :=
  { id := t.id, ticketNumber := t.ticketNumber, title := t.title,
    status := t.status, priority := t.priority, category := t.category }

def statusResponse (env : Env) (st : Store) (userId message : String) : ChatResponse :=
  let tn := extractTicketNumber message
  let tickets := getUserTickets st.tickets userId tn
  if tickets.length = 0 then
    match tn with
    | some n =>
        { text := notFoundText n, action := none, ticket := none, tickets := none,
          conversationContext := none }
    | none =>
        { text := noTicketsText, action := none, ticket := none, tickets := none,
          conversationContext := none }
  else
    { text := formatTicketStatus env tickets tn.isSome
      action := some BotAction.ticket_status
      ticket := none
      tickets := some (tickets.map mkStatusItem)
      conversationContext := none }

def offerResponse (message : String) : ChatResponse :=
  { text := stage6Text
    action := some BotAction.ticket_offer
    ticket := none
    tickets := none
    conversationContext := some { originalMessage := message, category := detectTicketCategory message } }

/-- POST /api/chatbot/message.  The validator trims the message and
rejects it outside 1..1000 characters; the seven stages then run in
priority order, each terminal on a hit.  The returned store reflects the
single possible side effect (ticket creation). -/
def route (env : Env) (st : Store) (userId : String) (rawMessage : String)
    (ctx : Option InCtx) : Envelope × Store :=
  let message := jsTrim rawMessage
  if message.length < 1 ∨ 1000 < message.length then (badRequest, st)
  else if detectGreeting message then
    (okJson { text := getGreetingResponse env.hour, action := none, ticket := none,
              tickets := none, conversationContext := none }, st)
  else
    let lm := jsTrim (jsToLower message)
    if isTicketConfirmation lm then
      match ctxOriginal ctx with
      | some m => confirmStage env st userId m (ctxCategory ctx)
      | none => confirmStage env st userId message none
    else
      match findDepartmentByService st.departments message with
      | some d => (okJson (deptResponse d message lm), st)
      | none =>
          match matchFAQ st.faqs message with
          | some ans => (okJson (faqResponse ans message lm), st)
          | none =>
              if detectTicketStatusInquiry lm then
                (okJson (statusResponse env st userId message), st)
              else if stage6Cues.any (fun c => jsIncludes lm c) then
                (okJson (offerResponse message), st)
              else
                (okJson { text := env.gptReply message, action := none, ticket := none,
                          tickets := none, conversationContext := none }, st)

/-! ## Helper lemmas -/

theorem strDataAppend (s t : String) : (s ++ t).data = s.data ++ t.data := by
  cases s
  cases t
  rfl

theorem charsPrefix_refl (n : List Char) : charsPrefix n n = true := by
  induction n with
  | nil => rfl
  | cons c cs ih => simp [charsPrefix, ih]

theorem charsPrefix_append_right (n s t : List Char) (h : charsPrefix n s = true) :
    charsPrefix n (s ++ t) = true := by
  induction n generalizing s with
  | nil => rfl
  | cons c cs ih =>
      cases s with
      | nil => simp [charsPrefix] at h
      | cons b bs =>
          simp only [charsPrefix, Bool.and_eq_true] at h
          simp only [List.cons_append, charsPrefix, Bool.and_eq_true]
          exact ⟨h.1, ih bs h.2⟩

theorem charsIncl_append_left (n a b : List Char) (h : charsIncl n b = true) :
    charsIncl n (a ++ b) = true := by
  induction a with
  | nil => simpa using h
  | cons c cs ih =>
      simp only [List.cons_append, charsIncl, Bool.or_eq_true]
      exact Or.inr ih

theorem charsIncl_append_right (n a b : List Char) (h : charsIncl n a = true) :
    charsIncl n (a ++ b) = true := by
  induction a with
  | nil =>
      simp only [charsIncl, List.isEmpty_iff] at h
      subst h
      cases b with
      | nil => rfl
      | cons c cs => simp [charsIncl, charsPrefix]
  | cons c cs ih =>
      simp only [charsIncl, Bool.or_eq_true] at h
      simp only [List.cons_append, charsIncl, Bool.or_eq_true]
      cases h with
      | inl hp => exact Or.inl (charsPrefix_append_right _ _ _ hp)
      | inr hi => exact Or.inr (ih hi)

theorem charsIncl_refl (n : List Char) : charsIncl n n = true := by
  cases n with
  | nil => rfl
  | cons c cs => simp [charsIncl, charsPrefix_refl]

theorem jsIncludes_refl (n : String) : jsIncludes n n = true :=
  charsIncl_refl n.data

theorem jsIncludes_append_left (a b n : String) (h : jsIncludes b n = true) :
    jsIncludes (a ++ b) n = true := by
  unfold jsIncludes at *
  rw [strDataAppend]
  exact charsIncl_append_left _ _ _ h

theorem jsIncludes_append_right (a b n : String) (h : jsIncludes a n = true) :
    jsIncludes (a ++ b) n = true := by
  unfold jsIncludes at *
  rw [strDataAppend]
  exact charsIncl_append_right _ _ _ h

/-- Stage 2 collapsed: a confirmation either persists exactly one ticket
derived from the chosen message m or recovers the failure in place. -/
theorem confirmStage_eq (env : Env) (st : Store) (u m : String) (cc : Option String) :
    confirmStage env st u m cc =
      if env.persistOk then
        (okJson (ticketCreatedResponse (confirmTicket env cc m u)),
         { st with tickets := st.tickets ++ [confirmTicket env cc m u] })
      else (okJson ticketFailResponse, st) := by
  cases h : env.persistOk <;>
    simp [confirmStage, createTicket, confirmTicket, h]

theorem findDept_none_of_no_cue (depts : List Department) (msg : String)
    (h : isLocationInquiry msg = false) :
    findDepartmentByService depts msg = none := by
  simp [findDepartmentByService, h]

theorem getUserTickets_length (ts : List Ticket) (u : String) (tn : Option String) :
    (getUserTickets ts u tn).length = min 10 (ts.filter (ticketQuery u tn)).length := by
  unfold getUserTickets
  rw [List.length_take, (List.perm_insertionSort newerFirst _).length_eq]

theorem getUserTickets_sorted (ts : List Ticket) (u : String) (tn : Option String) :
    List.Sorted newerFirst (getUserTickets ts u tn) :=
  (List.sorted_insertionSort newerFirst _).sublist (List.take_sublist _ _)

theorem formatTicketStatus_list (env : Env) (ts : List Ticket) (hne : ts ≠ []) :
    formatTicketStatus env ts false = listTicketView env ts := by
  cases ts with
  | nil => exact absurd rfl hne
  | cons t rest => simp [formatTicketStatus]

/-! ## Concrete fixtures -/

/-- An environment with a given server clock hour and successful
persistence. -/
def envAt (h : Nat) : Env :=
  { hour := h, persistOk := true, newTicketId := "id-1",
    newTicketNumber := "TICKET-20250101-AAA111", now := 0,
    fmtDateLong := fun _ => "Jan 1, 2025", fmtDateShort := fun _ => "Jan 1",
    gptReply := fun _ => "gpt-fallback" }

def emptyStore : Store :=
  { faqs := [], departments := [], tickets := [] }

/-- The original message of the OTR confirmation scenario. -/
def otrMsg : String := "I need an OTR, 2 copies, purpose: job application"

theorem createdText_has_number (t : Ticket) :
    jsIncludes (createdText t) t.ticketNumber = true := by
  unfold createdText
  apply jsIncludes_append_right
  apply jsIncludes_append_right
  apply jsIncludes_append_right
  apply jsIncludes_append_left
  exact jsIncludes_refl _

theorem createdText_has_title (t : Ticket) :
    jsIncludes (createdText t) t.title = true := by
  unfold createdText
  apply jsIncludes_append_right
  apply jsIncludes_append_left
  exact jsIncludes_refl _

/-! ## Claim theorems -/

/-- Claim C1: when the utterance is a ticket confirmation reaching stage
2 and the echoed context carries an original message, the router
persists exactly one ticket whose category and every field are derived
from the original message (the term confirmTicket env (ctxCategory ctx)
m u mentions only the context message m, never the confirmation
utterance), and in the concrete OTR scenario the created ticket has
numberOfCopies 2 and purpose job application, with action
ticket_created and the ticket number and title embedded in the response
text. -/
theorem c1_confirmation_uses_original_message :
    (∀ (env : Env) (st : Store) (u msg : String) (ctx : Option InCtx) (m : String),
      1 ≤ (jsTrim msg).length → (jsTrim msg).length ≤ 1000 →
      detectGreeting (jsTrim msg) = false →
      isTicketConfirmation (jsTrim (jsToLower (jsTrim msg))) = true →
      ctxOriginal ctx = some m →
      env.persistOk = true →
      route env st u msg ctx =
        (okJson (ticketCreatedResponse (confirmTicket env (ctxCategory ctx) m u)),
         { st with tickets := st.tickets ++ [confirmTicket env (ctxCategory ctx) m u] })) ∧
    (∀ (env : Env) (st : Store) (u : String),
      env.persistOk = true →
      route env st u "yes" (some { originalMessage := some otrMsg, category := some "OTR Request" }) =
          (okJson (ticketCreatedResponse (confirmTicket env (some "OTR Request") otrMsg u)),
           { st with tickets := st.tickets ++ [confirmTicket env (some "OTR Request") otrMsg u] }) ∧
        (confirmTicket env (some "OTR Request") otrMsg u).requestDetails.numberOfCopies = some 2 ∧
        (confirmTicket env (some "OTR Request") otrMsg u).requestDetails.purpose = some "job application" ∧
        (confirmTicket env (some "OTR Request") otrMsg u).category = "OTR Request" ∧
        (ticketCreatedResponse (confirmTicket env (some "OTR Request") otrMsg u)).action = some BotAction.ticket_created ∧
        jsIncludes (ticketCreatedResponse (confirmTicket env (some "OTR Request") otrMsg u)).text
          (confirmTicket env (some "OTR Request") otrMsg u).ticketNumber = true ∧
        jsIncludes (ticketCreatedResponse (confirmTicket env (some "OTR Request") otrMsg u)).text
          (confirmTicket env (some "OTR Request") otrMsg u).title = true) := by
  have hgen : ∀ (env : Env) (st : Store) (u msg : String) (ctx : Option InCtx) (m : String),
      1 ≤ (jsTrim msg).length → (jsTrim msg).length ≤ 1000 →
      detectGreeting (jsTrim msg) = false →
      isTicketConfirmation (jsTrim (jsToLower (jsTrim msg))) = true →
      ctxOriginal ctx = some m →
      env.persistOk = true →
      route env st u msg ctx =
        (okJson (ticketCreatedResponse (confirmTicket env (ctxCategory ctx) m u)),
         { st with tickets := st.tickets ++ [confirmTicket env (ctxCategory ctx) m u] }) := by
    intro env st u msg ctx m h1 h2 hg hc hm hp
    have hv1 : (jsTrim msg).length ≠ 0 := by omega
    have hv2 : ¬ 1000 < (jsTrim msg).length := by omega
    simp [route, hv1, hv2, hg, hc, hm, confirmStage_eq, hp]
  refine ⟨hgen, ?_⟩
  intro env st u hp
  refine ⟨?_, rfl, rfl, rfl, rfl, createdText_has_number _, createdText_has_title _⟩
  exact hgen env st u "yes" _ otrMsg (by decide) (by decide) (by decide) (by decide) rfl hp

theorem c1_witness :
    (envAt 11).persistOk = true ∧
    route (envAt 11) emptyStore "u" "yes"
        (some { originalMessage := some otrMsg, category := some "OTR Request" }) =
      (okJson (ticketCreatedResponse (confirmTicket (envAt 11) (some "OTR Request") otrMsg "u")),
       { emptyStore with
          tickets := emptyStore.tickets ++ [confirmTicket (envAt 11) (some "OTR Request") otrMsg "u"] }) ∧
    (confirmTicket (envAt 11) (some "OTR Request") otrMsg "u").requestDetails.numberOfCopies = some 2 ∧
    (confirmTicket (envAt 11) (some "OTR Request") otrMsg "u").requestDetails.purpose = some "job application" :=
  ⟨rfl,
   (c1_confirmation_uses_original_message.2 (envAt 11) emptyStore "u" rfl).1,
   (c1_confirmation_uses_original_message.2 (envAt 11) emptyStore "u" rfl).2.1,
   (c1_confirmation_uses_original_message.2 (envAt 11) emptyStore "u" rfl).2.2.1⟩

/-- Claim C6: every utterance whose trimmed, case-folded text begins
with one of the fixed greeting prefixes is answered at stage 1 with the
canned time-of-day greeting, no other stage runs and the store is
untouched, regardless of any other keywords in the utterance. -/
theorem c6_greeting_terminal (env : Env) (st : Store) (u msg : String) (ctx : Option InCtx)
    (h1 : 1 ≤ (jsTrim msg).length) (h2 : (jsTrim msg).length ≤ 1000)
    (hg : detectGreeting (jsTrim msg) = true) :
    route env st u msg ctx =
      (okJson { text := getGreetingResponse env.hour, action := none, ticket := none,
                tickets := none, conversationContext := none }, st) := by
  have hv1 : (jsTrim msg).length ≠ 0 := by omega
  have hv2 : ¬ 1000 < (jsTrim msg).length := by omega
  simp [route, hv1, hv2, hg]

theorem c6_greeting_terminal_witness :
    detectGreeting (jsTrim "hello, I need a transcript") = true ∧
    route (envAt 11) emptyStore "u" "hello, I need a transcript" none =
      (okJson { text := getGreetingResponse 11, action := none, ticket := none,
                tickets := none, conversationContext := none }, emptyStore) :=
  ⟨by decide,
   c6_greeting_terminal (envAt 11) emptyStore "u" "hello, I need a transcript" none
     (by decide) (by decide) (by decide)⟩

/-- Claim C7 counterexample: two invocations with identical utterance,
context, catalogs and ticket store but run at different server clock
hours return different envelopes, so the output is not a function of
utterance, context and catalogs alone. -/
theorem c7_counterexample :
    (route (envAt 11) emptyStore "u" "hello" none).1 ≠
      (route (envAt 18) emptyStore "u" "hello" none).1 := by
  decide

/-- Claim C7 amended: for greeting inputs the response is a
deterministic function of the utterance and the server clock hour
alone; two invocations at the same hour return byte-identical
envelopes whatever the catalogs, ticket store, user or context. -/
theorem c7_greeting_deterministic (msg : String) (env1 env2 : Env) (st1 st2 : Store)
    (u1 u2 : String) (ctx1 ctx2 : Option InCtx)
    (hg : detectGreeting (jsTrim msg) = true) (hh : env1.hour = env2.hour) :
    (route env1 st1 u1 msg ctx1).1 = (route env2 st2 u2 msg ctx2).1 := by
  by_cases hval : (jsTrim msg).length < 1 ∨ 1000 < (jsTrim msg).length
  · have hval2 : (jsTrim msg).length = 0 ∨ 1000 < (jsTrim msg).length := by omega
    simp [route, hval2]
  · have hv1 : (jsTrim msg).length ≠ 0 := by omega
    have hv2 : ¬ 1000 < (jsTrim msg).length := by omega
    simp [route, hv1, hv2, hg, hh]

theorem c7_witness :
    detectGreeting (jsTrim "hello") = true ∧ (envAt 9).hour = (envAt 9).hour ∧
    (route (envAt 9) emptyStore "a" "hello" none).1 =
      (route (envAt 9) { emptyStore with faqs := [{ question := "q", keywords := ["k"], answer := "a" }] }
        "b" "hello" (some { originalMessage := some "x", category := none })).1 :=
  ⟨by decide, rfl,
   c7_greeting_deterministic "hello" (envAt 9) (envAt 9) emptyStore
     { emptyStore with faqs := [{ question := "q", keywords := ["k"], answer := "a" }] }
     "a" "b" none (some { originalMessage := some "x", category := none })
     (by decide) rfl⟩

/-- Claim C8: when ticket persistence fails during a confirmation the
router recovers in place: the envelope still reports success with
status 200, the data carries the apologetic retry text with no action
and no ticket, and the store is unchanged (no ticket is created). -/
theorem c8_persistence_failure_recovered (env : Env) (st : Store) (u msg : String)
    (ctx : Option InCtx)
    (h1 : 1 ≤ (jsTrim msg).length) (h2 : (jsTrim msg).length ≤ 1000)
    (hg : detectGreeting (jsTrim msg) = false)
    (hc : isTicketConfirmation (jsTrim (jsToLower (jsTrim msg))) = true)
    (hp : env.persistOk = false) :
    route env st u msg ctx = (okJson ticketFailResponse, st) ∧
    (okJson ticketFailResponse).status = 200 ∧
    (okJson ticketFailResponse).success = true ∧
    ticketFailResponse.action = none ∧
    ticketFailResponse.ticket = none ∧
    ticketFailResponse.text = createFailText := by
  have hv1 : (jsTrim msg).length ≠ 0 := by omega
  have hv2 : ¬ 1000 < (jsTrim msg).length := by omega
  refine ⟨?_, rfl, rfl, rfl, rfl, rfl⟩
  cases hm : ctxOriginal ctx <;>
    simp [route, hv1, hv2, hg, hc, hm, confirmStage_eq, hp]

theorem c8_witness :
    ({ envAt 11 with persistOk := false } : Env).persistOk = false ∧
    route { envAt 11 with persistOk := false } emptyStore "u" "yes"
        (some { originalMessage := some otrMsg, category := some "OTR Request" }) =
      (okJson ticketFailResponse, emptyStore) :=
  ⟨rfl,
   (c8_persistence_failure_recovered { envAt 11 with persistOk := false } emptyStore "u" "yes"
     (some { originalMessage := some otrMsg, category := some "OTR Request" })
     (by decide) (by decide) (by decide) (by decide) rfl).1⟩

/-- Claim C10: the client-echoed conversationContext is read only in the
confirmation branch, so for every utterance that is not classified as a
ticket confirmation the response is identical whatever context is
supplied. -/
theorem c10_context_noninterference (env : Env) (st : Store) (u msg : String)
    (ctx ctx2 : Option InCtx)
    (hc : isTicketConfirmation (jsTrim (jsToLower (jsTrim msg))) = false) :
    route env st u msg ctx = route env st u msg ctx2 := by
  simp [route, hc]

theorem c10_witness :
    isTicketConfirmation (jsTrim (jsToLower (jsTrim "what are your office hours"))) = false ∧
    route (envAt 11) emptyStore "u" "what are your office hours"
        (some { originalMessage := some "forged earlier turn", category := some "OTR Request" }) =
      route (envAt 11) emptyStore "u" "what are your office hours" none :=
  ⟨by decide,
   c10_context_noninterference (envAt 11) emptyStore "u" "what are your office hours"
     (some { originalMessage := some "forged earlier turn", category := some "OTR Request" })
     none (by decide)⟩

/-- First-match lemma for find? over a decomposed catalog. -/
theorem find?_first {α : Type} (p : α → Bool) (pre : List α) (d : α) (post : List α)
    (hpre : ∀ x ∈ pre, p x = false) (hd : p d = true) :
    List.find? p (pre ++ d :: post) = some d := by
  induction pre with
  | nil => simp [List.find?_cons_of_pos, hd]
  | cons a as ih =>
      have ha : p a = false := hpre a (by simp)
      rw [List.cons_append, List.find?_cons_of_neg _ (by simp [ha])]
      exact ih (fun x hx => hpre x (by simp [hx]))

/-- Claim C3: the department stage runs only on a location-inquiry cue,
the first catalog department with a case-insensitive service substring
match wins, and the two concrete utterances of the claim produce
department_info and ticket_offer (with the original message echoed in
the context) respectively. -/
theorem c3_department_lookup :
    (∀ (depts : List Department) (msg : String), isLocationInquiry msg = false →
      findDepartmentByService depts msg = none) ∧
    (∀ (msg : String) (pre : List Department) (d : Department) (post : List Department),
      isLocationInquiry msg = true →
      (∀ d2 ∈ pre, deptServiceMatch (jsToLower msg) d2 = false) →
      deptServiceMatch (jsToLower msg) d = true →
      findDepartmentByService (pre ++ d :: post) msg = some d) ∧
    (∀ (env : Env) (st : Store) (u : String) (ctx : Option InCtx) (d : Department),
      st.departments = [d] → d.services = ["COE"] →
      (route env st u "where can I get my COE" ctx).1 =
        okJson { text := formatDepartmentInfo d, action := some BotAction.department_info,
                 ticket := none, tickets := none, conversationContext := none }) ∧
    (∀ (env : Env) (st : Store) (u : String) (ctx : Option InCtx) (d : Department),
      st.departments = [d] → d.services = ["COE"] →
      (route env st u "I need to get my COE" ctx).1 =
        okJson { text := formatDepartmentInfo d ++ deptOfferText,
                 action := some BotAction.ticket_offer, ticket := none, tickets := none,
                 conversationContext := some { originalMessage := "I need to get my COE",
                                               category := "Document Request" } }) := by
  refine ⟨?_, ?_, ?_, ?_⟩
  · intro depts msg h
    exact findDept_none_of_no_cue depts msg h
  · intro msg pre d post hloc hpre hd
    unfold findDepartmentByService
    rw [if_pos hloc]
    exact find?_first _ pre d post hpre hd
  · intro env st u ctx d hdep hserv
    have htrim : jsTrim "where can I get my COE" = "where can I get my COE" := rfl
    have hlm : jsTrim (jsToLower "where can I get my COE") = "where can i get my coe" := rfl
    have hmserv : deptServiceMatch (jsToLower "where can I get my COE") d = true := by
      unfold deptServiceMatch
      rw [hserv]
      decide
    have hfind : findDepartmentByService st.departments "where can I get my COE" = some d := by
      rw [hdep]
      unfold findDepartmentByService
      rw [if_pos (show isLocationInquiry "where can I get my COE" = true by decide)]
      simp [List.find?, hmserv]
    have hcue : stage3Cues.any (fun c => jsIncludes "where can i get my coe" c) = false := by
      decide
    simp only [route, htrim, hlm]
    rw [if_neg (by decide), if_neg (by decide), if_neg (by decide), hfind]
    dsimp only
    unfold deptResponse
    rw [hcue]
    simp
  · intro env st u ctx d hdep hserv
    have htrim : jsTrim "I need to get my COE" = "I need to get my COE" := rfl
    have hlm : jsTrim (jsToLower "I need to get my COE") = "i need to get my coe" := rfl
    have hmserv : deptServiceMatch (jsToLower "I need to get my COE") d = true := by
      unfold deptServiceMatch
      rw [hserv]
      decide
    have hfind : findDepartmentByService st.departments "I need to get my COE" = some d := by
      rw [hdep]
      unfold findDepartmentByService
      rw [if_pos (show isLocationInquiry "I need to get my COE" = true by decide)]
      simp [List.find?, hmserv]
    have hcue : stage3Cues.any (fun c => jsIncludes "i need to get my coe" c) = true := by
      decide
    have hcat : detectTicketCategory "I need to get my COE" = "Document Request" := by decide
    simp only [route, htrim, hlm]
    rw [if_neg (by decide), if_neg (by decide), if_neg (by decide), hfind]
    dsimp only
    unfold deptResponse
    rw [hcue, hcat]
    simp

def coeDept : Department :=
  { name := "Registrar Records Section", location := "Main Hall 2F", hours := "8:00-17:00",
    contact := some "records@example.edu", phone := none, services := ["COE"] }

def coeStore : Store := { faqs := [], departments := [coeDept], tickets := [] }

theorem c3_witness :
    isLocationInquiry "hello there" = false ∧
    findDepartmentByService [coeDept] "hello there" = none ∧
    deptServiceMatch (jsToLower "where can I get my COE") coeDept = true ∧
    findDepartmentByService ([] ++ coeDept :: []) "where can I get my COE" = some coeDept ∧
    (route (envAt 11) coeStore "u" "where can I get my COE" none).1 =
      okJson { text := formatDepartmentInfo coeDept, action := some BotAction.department_info,
               ticket := none, tickets := none, conversationContext := none } ∧
    (route (envAt 11) coeStore "u" "I need to get my COE" none).1 =
      okJson { text := formatDepartmentInfo coeDept ++ deptOfferText,
               action := some BotAction.ticket_offer, ticket := none, tickets := none,
               conversationContext := some { originalMessage := "I need to get my COE",
                                             category := "Document Request" } } :=
  ⟨by decide,
   c3_department_lookup.1 [coeDept] "hello there" (by decide),
   by decide,
   c3_department_lookup.2.1 "where can I get my COE" [] coeDept []
     (by decide) (by simp) (by decide),
   c3_department_lookup.2.2.1 (envAt 11) coeStore "u" none coeDept rfl rfl,
   c3_department_lookup.2.2.2 (envAt 11) coeStore "u" none coeDept rfl rfl⟩

def gradFaqStore : Store :=
  { faqs := [{ question := "Graduation info", keywords := ["graduation"], answer := "Answer A" }],
    departments := [], tickets := [] }

/-- Claim C2 counterexample: the utterance matches an FAQ entry and
contains the cue word inquiry (which is in the stage-3 cue set the claim
quotes), yet stage 4 returns the bare FAQ answer with action null and no
ticket offer: the stage-4 cue list of the source omits inquiry. -/
theorem c2_counterexample :
    matchFAQ gradFaqStore.faqs "inquiry about graduation" = some "Answer A" ∧
    jsIncludes (jsTrim (jsToLower (jsTrim "inquiry about graduation"))) "inquiry" = true ∧
    (route (envAt 11) gradFaqStore "u" "inquiry about graduation" none).1 =
      okJson { text := "Answer A", action := none, ticket := none, tickets := none,
               conversationContext := none } :=
  ⟨by decide, by decide, by decide⟩

/-- Claim C2 amended: for every utterance that reaches stage 4, matches
an FAQ entry and contains one of the stage-4 request-intent cues
(request, need, want, apply, create, submit, help with — without
inquiry), the router appends the ticket offer to the stored answer, sets
action ticket_offer and embeds the conversation context exactly as
stage 3 does. -/
theorem c2_faq_offer_amended (env : Env) (st : Store) (u msg : String) (ctx : Option InCtx)
    (ans : String)
    (h1 : 1 ≤ (jsTrim msg).length) (h2 : (jsTrim msg).length ≤ 1000)
    (hg : detectGreeting (jsTrim msg) = false)
    (hc : isTicketConfirmation (jsTrim (jsToLower (jsTrim msg))) = false)
    (hd : findDepartmentByService st.departments (jsTrim msg) = none)
    (hf : matchFAQ st.faqs (jsTrim msg) = some ans)
    (hcue : stage4Cues.any (fun c => jsIncludes (jsTrim (jsToLower (jsTrim msg))) c) = true) :
    route env st u msg ctx =
      (okJson { text := ans ++ faqOfferText, action := some BotAction.ticket_offer,
                ticket := none, tickets := none,
                conversationContext := some { originalMessage := jsTrim msg,
                                              category := detectTicketCategory (jsTrim msg) } },
       st) := by
  have hv1 : ¬((jsTrim msg).length < 1 ∨ 1000 < (jsTrim msg).length) := by omega
  simp only [route]
  rw [if_neg hv1, if_neg (by simp [hg]), if_neg (by simp [hc]), hd]
  dsimp only
  rw [hf]
  dsimp only
  unfold faqResponse
  rw [hcue]
  simp

def transcriptFaqStore : Store :=
  { faqs := [{ question := "How do I request a transcript",
               keywords := ["transcript"], answer := "Answer T" }],
    departments := [], tickets := [] }

theorem c2_witness :
    matchFAQ transcriptFaqStore.faqs (jsTrim "I need my transcript") = some "Answer T" ∧
    stage4Cues.any
      (fun c => jsIncludes (jsTrim (jsToLower (jsTrim "I need my transcript"))) c) = true ∧
    route (envAt 11) transcriptFaqStore "u" "I need my transcript" none =
      (okJson { text := "Answer T" ++ faqOfferText, action := some BotAction.ticket_offer,
                ticket := none, tickets := none,
                conversationContext := some { originalMessage := jsTrim "I need my transcript",
                                              category :=
                                                detectTicketCategory (jsTrim "I need my transcript") } },
       transcriptFaqStore) :=
  ⟨by decide, by decide,
   c2_faq_offer_amended (envAt 11) transcriptFaqStore "u" "I need my transcript" none "Answer T"
     (by decide) (by decide) (by decide) (by decide) (by decide) (by decide) (by decide)⟩

/-- Claim C5: the status trigger phrase my tickets is misparsed by the
loose ticket-number pattern, which matches the trailing s of tickets, so
extractTicketNumber returns S, the query is filtered to ticket number S,
and a user with tickets but none literally numbered S receives the
could-not-find text for #S with action null instead of a listing. -/
theorem c5_my_tickets_misparse :
    extractTicketNumber "my tickets" = some "S" ∧
    detectTicketStatusInquiry "my tickets" = true ∧
    (∀ (env : Env) (st : Store) (u : String) (ctx : Option InCtx),
      matchFAQ st.faqs "my tickets" = none →
      st.tickets.filter (ticketQuery u (some "S")) = [] →
      route env st u "my tickets" ctx =
        (okJson { text := notFoundText "S", action := none, ticket := none, tickets := none,
                  conversationContext := none }, st)) := by
  refine ⟨by decide, by decide, ?_⟩
  intro env st u ctx hfaq hq
  have htrim : jsTrim "my tickets" = "my tickets" := rfl
  have hlm : jsTrim (jsToLower "my tickets") = "my tickets" := rfl
  have hlen : ("my tickets" : String).length = 10 := rfl
  have hg : detectGreeting "my tickets" = false := by decide
  have hc : isTicketConfirmation "my tickets" = false := by decide
  have hs : detectTicketStatusInquiry "my tickets" = true := by decide
  have hd : findDepartmentByService st.departments "my tickets" = none :=
    findDept_none_of_no_cue _ _ (by decide)
  have hnum : extractTicketNumber "my tickets" = some "S" := by decide
  have hut : getUserTickets st.tickets u (some "S") = [] := by
    unfold getUserTickets
    rw [hq]
    rfl
  simp [route, statusResponse, htrim, hlm, hlen, hg, hc, hs, hd, hfaq, hnum, hut]

def c5Store : Store :=
  { faqs := [], departments := [],
    tickets := [{ id := "t1", ticketNumber := "TICKET-20240101-AAA", title := "Transcript request",
                  description := "please send my transcript", category := "OTR Request",
                  priority := "Normal", status := "Pending", createdBy := "u",
                  assignedTo := none, resolution := none, createdAt := 1,
                  requestDetails := {} }] }

theorem c5_witness :
    matchFAQ c5Store.faqs "my tickets" = none ∧
    c5Store.tickets.filter (ticketQuery "u" (some "S")) = [] ∧
    c5Store.tickets ≠ [] ∧
    route (envAt 11) c5Store "u" "my tickets" none =
      (okJson { text := notFoundText "S", action := none, ticket := none, tickets := none,
                conversationContext := none }, c5Store) :=
  ⟨by decide, by decide, by decide,
   c5_my_tickets_misparse.2.2 (envAt 11) c5Store "u" none (by decide) (by decide)⟩

/-- Claim C4: for the status inquiry show ticket (which yields no ticket
number), a user with 12 tickets receives the numbered summary list of
exactly 10 tickets, newest first, with the truncation note; in general
the result list is capped at 10 and the note component of the text is
included exactly when the result count reaches the cap. -/
theorem c4_status_list_cap (env : Env) (st : Store) (u : String)
    (hfaq : matchFAQ st.faqs "show ticket" = none) :
    ((st.tickets.filter (ticketQuery u none)).length = 12 →
      (route env st u "show ticket" none).1 =
        okJson { text := listTicketView env (getUserTickets st.tickets u none),
                 action := some BotAction.ticket_status, ticket := none,
                 tickets := some ((getUserTickets st.tickets u none).map mkStatusItem),
                 conversationContext := none } ∧
      (getUserTickets st.tickets u none).length = 10 ∧
      List.Sorted newerFirst (getUserTickets st.tickets u none) ∧
      jsIncludes (listTicketView env (getUserTickets st.tickets u none)) truncNote = true) ∧
    ((getUserTickets st.tickets u none).length ≤ 10 ∧
      (getUserTickets st.tickets u none ≠ [] →
        (route env st u "show ticket" none).1 =
          okJson { text := (listIntroLines env (getUserTickets st.tickets u none) ++
                      (if 10 ≤ (getUserTickets st.tickets u none).length then truncNote else ""))
                      ++ finalPrompt,
                   action := some BotAction.ticket_status, ticket := none,
                   tickets := some ((getUserTickets st.tickets u none).map mkStatusItem),
                   conversationContext := none })) := by
  have htrim : jsTrim "show ticket" = "show ticket" := rfl
  have hlm : jsTrim (jsToLower "show ticket") = "show ticket" := rfl
  have hd : findDepartmentByService st.departments "show ticket" = none :=
    findDept_none_of_no_cue _ _ (by decide)
  have hnum : extractTicketNumber "show ticket" = none := by decide
  have hroute : route env st u "show ticket" none =
      (okJson (statusResponse env st u "show ticket"), st) := by
    simp only [route, htrim, hlm]
    rw [if_neg (by decide), if_neg (by decide), if_neg (by decide), hd]
    dsimp only
    rw [hfaq]
    dsimp only
    rw [if_pos (by decide)]
  have hstat : ∀ _ : getUserTickets st.tickets u none ≠ [],
      statusResponse env st u "show ticket" =
        { text := listTicketView env (getUserTickets st.tickets u none),
          action := some BotAction.ticket_status, ticket := none,
          tickets := some ((getUserTickets st.tickets u none).map mkStatusItem),
          conversationContext := none } := by
    intro hne
    have hlen : ¬ (getUserTickets st.tickets u none).length = 0 := by
      simpa [List.length_eq_zero] using hne
    unfold statusResponse
    rw [hnum]
    dsimp only [Option.isSome]
    rw [if_neg hlen]
    rw [formatTicketStatus_list env _ hne]
  constructor
  · intro h12
    have hlen10 : (getUserTickets st.tickets u none).length = 10 := by
      rw [getUserTickets_length, h12]
      decide
    have hne : getUserTickets st.tickets u none ≠ [] := by
      intro hnil
      rw [hnil] at hlen10
      simp at hlen10
    refine ⟨by rw [hroute, hstat hne], hlen10, getUserTickets_sorted _ _ _, ?_⟩
    unfold listTicketView
    rw [hlen10]
    rw [if_pos (by norm_num)]
    exact jsIncludes_append_right _ _ _ (jsIncludes_append_left _ _ _ (jsIncludes_refl _))
  · refine ⟨?_, ?_⟩
    · rw [getUserTickets_length]
      exact Nat.min_le_left _ _
    · intro hne
      rw [hroute, hstat hne]
      rfl

def mkT (i : Nat) : Ticket :=
  { id := "t" ++ toString i, ticketNumber := "TICKET-" ++ toString i,
    title := "Req " ++ toString i, description := "created for testing",
    category := "General Inquiry", priority := "Normal", status := "Pending",
    createdBy := "u", assignedTo := none, resolution := none, createdAt := i,
    requestDetails := {} }

def c4Store : Store :=
  { faqs := [], departments := [], tickets := (List.range 12).map mkT }

theorem c4_witness :
    matchFAQ c4Store.faqs "show ticket" = none ∧
    (c4Store.tickets.filter (ticketQuery "u" none)).length = 12 ∧
    ((route (envAt 11) c4Store "u" "show ticket" none).1 =
        okJson { text := listTicketView (envAt 11) (getUserTickets c4Store.tickets "u" none),
                 action := some BotAction.ticket_status, ticket := none,
                 tickets := some ((getUserTickets c4Store.tickets "u" none).map mkStatusItem),
                 conversationContext := none } ∧
      (getUserTickets c4Store.tickets "u" none).length = 10 ∧
      List.Sorted newerFirst (getUserTickets c4Store.tickets "u" none) ∧
      jsIncludes (listTicketView (envAt 11) (getUserTickets c4Store.tickets "u" none))
        truncNote = true) :=
  ⟨by decide, by decide,
   (c4_status_list_cap (envAt 11) c4Store "u" (by decide)).1 (by decide)⟩

/-- Claim C9: one router invocation never changes the FAQ or department
catalogs and its only persistent effect is at most one ticket appended
to the store; no existing ticket is updated or deleted (the prior list
is preserved as a prefix verbatim). -/
theorem c9_frame_effects (env : Env) (st : Store) (u msg : String) (ctx : Option InCtx) :
    ((route env st u msg ctx).2.faqs = st.faqs ∧
     (route env st u msg ctx).2.departments = st.departments) ∧
    ((route env st u msg ctx).2.tickets = st.tickets ∨
     ∃ t, (route env st u msg ctx).2.tickets = st.tickets ++ [t]) := by
  have hcases : (route env st u msg ctx).2 = st ∨
      ∃ t, (route env st u msg ctx).2 = { st with tickets := st.tickets ++ [t] } := by
    unfold route
    dsimp only
    split
    · exact Or.inl rfl
    split
    · exact Or.inl rfl
    split
    · split
      · rw [confirmStage_eq]
        split
        · exact Or.inr ⟨_, rfl⟩
        · exact Or.inl rfl
      · rw [confirmStage_eq]
        split
        · exact Or.inr ⟨_, rfl⟩
        · exact Or.inl rfl
    · split
      · exact Or.inl rfl
      · split
        · exact Or.inl rfl
        · split
          · exact Or.inl rfl
          · split
            · exact Or.inl rfl
            · exact Or.inl rfl
  rcases hcases with h | ⟨t, h⟩
  · rw [h]
    exact ⟨⟨rfl, rfl⟩, Or.inl rfl⟩
  · rw [h]
    exact ⟨⟨rfl, rfl⟩, Or.inr ⟨t, rfl⟩⟩
